import Mathlib

/-!
Shallow embedding of the `wizard` application (a COSMIC desktop utility that
picks a `.deb` file and installs it through the apt daemon after a polkit
authorization check).  The embedding covers the two source files:

* `src/package.rs` — the `Package` record, `Package::new`, `grant_permissions`
  and `install_file`.  The D-Bus world (system connection, polkit authority,
  apt daemon, transaction object) is modelled by an environment record `Env`
  holding the outcome of each remote call; the functions are translated
  verbatim, additionally recording a trace of which calls were reached so that
  ordering/reachability properties can be stated.
* `src/app.rs` — the message enum, the application model and the `update`
  function, the `SelectFile` future, the `AskPermissions` completion callback
  and the relevant fragment of `view` (the install button's press handler).
-/

deriving instance DecidableEq for Except

namespace Wizard

/-- Model of Rust's `std::path::Path::file_name` on UTF-8 strings.
`Path::components` drops empty components and interior `"."` components; the
final component is the file name unless it is `".."` (or there is no
component at all), in which case `file_name` is `None`. -/
def fileName (path : String) : Option String :=
  let comps := (path.splitOn "/").filter (fun c => c ≠ "" && c ≠ ".")
  match comps.getLast? with
  | none => none
  | some c => if c = ".." then none else some c

/-- The three-field record describing a chosen file (`src/package.rs`). -/
structure Package where
  path : String
  name : String
  is_installed : Bool
deriving DecidableEq, Repr

/-- `Package::new` (`src/package.rs` lines 16–32).  The source returns
`io::Result<Self>` but the error branch does not exist: the body always ends
in `Ok(..)`.  `os_filename.to_str()` never returns `None` on UTF-8 strings,
so the name is the final path component or the empty string. -/
def Package.new (path : String) : Except String Package :=
  let name :=
    match fileName path with
    | some name => name
    | none => ""
  .ok { path := path, name := name, is_installed := false }

/-- The remote calls (and local fallible constructions) performed by the
install flow, in the order the source can reach them. -/
inductive Rpc where
  | connection
  | authorityProxyNew
  | subjectNewForOwner
  | checkAuthorization
  | aptDaemonProxyNew
  | installFileRpc
  | aptTransactionProxyNew
  | transactionRun
deriving DecidableEq, Repr

/-- The part of polkit's `CheckAuthorization` reply that the source reads. -/
structure CheckAuthorizationResult where
  is_authorized : Bool
deriving DecidableEq, Repr

/-- Outcome environment for the D-Bus world: each field is what the
corresponding call returns if the flow reaches it.  Errors are modelled by
their display string (the source converts every error to
`zbus::fdo::Error::Failed(string)`). -/
structure Env where
  connection : Except String Unit
  authorityProxyNew : Except String Unit
  subjectNewForOwner : Except String Unit
  checkAuthorization : Except String CheckAuthorizationResult
  aptDaemonProxyNew : Except String Unit
  installFileRpc : Except String String
  aptTransactionProxyNew : Except String Unit
  transactionRun : Except String Unit
deriving DecidableEq, Repr

/-- `zbus_error_from_display` (`src/package.rs` lines 72–74): every error is
collapsed to its display string. -/
def zbus_error_from_display (why : String) : String := why

/-- `install_file` (`src/package.rs` lines 76–90), translated from the nested
`if let Ok(..)` chain.  Besides the returned `Result`, the model records the
calls that were reached.  Note the fall-through: when the daemon proxy, the
install-file RPC or the transaction proxy fails, the chain falls out of the
nested `if`s to the final `Ok(false)`. -/
def install_file (env : Env) (_package : Package) :
    Except String Bool × List Rpc :=
  match env.aptDaemonProxyNew with
  | .ok _ =>
    match env.installFileRpc with
    | .ok _path =>
      match env.aptTransactionProxyNew with
      | .ok _ =>
        match env.transactionRun with
        | .ok _ =>
          (.ok true,
            [.aptDaemonProxyNew, .installFileRpc, .aptTransactionProxyNew,
              .transactionRun])
        | .error _ =>
          (.error (zbus_error_from_display "Error running transaction"),
            [.aptDaemonProxyNew, .installFileRpc, .aptTransactionProxyNew,
              .transactionRun])
      | .error _ =>
        (.ok false,
          [.aptDaemonProxyNew, .installFileRpc, .aptTransactionProxyNew])
    | .error _ => (.ok false, [.aptDaemonProxyNew, .installFileRpc])
  | .error _ => (.ok false, [.aptDaemonProxyNew])

/-- The `if let Ok(status) = install_file(..) { Ok(status) } else { Err(..) }`
wrapper inside `grant_permissions` (`src/package.rs` lines 61–66). -/
def grantInstallResult (r : Except String Bool) : Except String Bool :=
  match r with
  | .ok status => .ok status
  | .error _ => .error (zbus_error_from_display "Error during installation")

/-- `grant_permissions` (`src/package.rs` lines 34–70).  `pid` is the value of
`std::process::id()`.  When `pid == 0` the source sets `permitted = true`
without consulting polkit; otherwise it builds a subject and asks polkit,
taking `is_authorized` from the reply.  If permitted it runs `install_file`;
otherwise it returns the "Operation not permitted by Polkit" error. -/
def grant_permissions (env : Env) (pid : Nat) (package : Package) :
    Except String Bool × List Rpc :=
  match env.connection with
  | .error e => (.error e, [.connection])
  | .ok _ =>
    match env.authorityProxyNew with
    | .error e => (.error e, [.connection, .authorityProxyNew])
    | .ok _ =>
      if pid = 0 then
        let (res, tr) := install_file env package
        (grantInstallResult res, [.connection, .authorityProxyNew] ++ tr)
      else
        match env.subjectNewForOwner with
        | .error e =>
          (.error (zbus_error_from_display
              ("could not create policykit1 subject: " ++ e)),
            [.connection, .authorityProxyNew, .subjectNewForOwner])
        | .ok _ =>
          match env.checkAuthorization with
          | .error e =>
            (.error (zbus_error_from_display
                ("could not check policykit authorization: " ++ e)),
              [.connection, .authorityProxyNew, .subjectNewForOwner,
                .checkAuthorization])
          | .ok auth =>
            if auth.is_authorized then
              let (res, tr) := install_file env package
              (grantInstallResult res,
                [.connection, .authorityProxyNew, .subjectNewForOwner,
                  .checkAuthorization] ++ tr)
            else
              (.error (zbus_error_from_display
                  "Operation not permitted by Polkit"),
                [.connection, .authorityProxyNew, .subjectNewForOwner,
                  .checkAuthorization])

/-- The single context page of the application (`src/app.rs` lines 350–354). -/
inductive ContextPage where
  | About
deriving DecidableEq, Repr

/-- Modelled from the spec: the repository's `Config` type lives in
`src/config.rs`, which is not among the provided sources.  The spec and the
source comment describe it only as "configuration data that persists between
application runs", so it is modelled as an abstract persisted value. -/
structure Config where
  data : Nat
deriving DecidableEq, Repr

/-- The message enum (`src/app.rs` lines 38–49): nine variants. -/
inductive Message where
  | OpenRepositoryUrl
  | SubscriptionChannel
  | ToggleContextPage (p : ContextPage)
  | UpdateConfig (c : Config)
  | SelectFile
  | UpdatePackage (p : Package)
  | AskPermissions (p : Package)
  | CheckInstalled (p : Option Package)
  | PackageInstalled (status : Bool)
deriving DecidableEq, Repr

/-- One nullary tag per constructor of `Message`, to count the variants. -/
inductive MessageTag where
  | OpenRepositoryUrl
  | SubscriptionChannel
  | ToggleContextPage
  | UpdateConfig
  | SelectFile
  | UpdatePackage
  | AskPermissions
  | CheckInstalled
  | PackageInstalled
deriving DecidableEq, Repr, Fintype

/-- The variant tag of a message. -/
def Message.tag : Message → MessageTag
  | .OpenRepositoryUrl => .OpenRepositoryUrl
  | .SubscriptionChannel => .SubscriptionChannel
  | .ToggleContextPage _ => .ToggleContextPage
  | .UpdateConfig _ => .UpdateConfig
  | .SelectFile => .SelectFile
  | .UpdatePackage _ => .UpdatePackage
  | .AskPermissions _ => .AskPermissions
  | .CheckInstalled _ => .CheckInstalled
  | .PackageInstalled _ => .PackageInstalled

/-- The mutable application state touched by `update` (`src/app.rs` lines
23–35): the context page, the drawer visibility flag
(`core.window.show_context`), the persisted config, the chosen package and
the `is_installed` flag. -/
structure AppModel where
  context_page : ContextPage
  show_context : Bool
  config : Config
  package : Option Package
  is_installed : Bool
deriving DecidableEq, Repr

/-- The commands `update` can return: nothing, the `SelectFile` future, an
immediate application message (`command::message`), or the
`grant_permissions` future of `AskPermissions`. -/
inductive Cmd where
  | none
  | performSelectFile
  | appMessage (m : Message)
  | performGrantPermissions (p : Package)
deriving DecidableEq, Repr

/-- `AppModel::update` (`src/app.rs` lines 214–317).  Side effects outside the
model (opening the repository URL, setting the context-drawer title) are not
state of the model and are dropped; every state assignment and returned
command is translated branch by branch. -/
def update (m : AppModel) (msg : Message) : AppModel × Cmd :=
  match msg with
  | .OpenRepositoryUrl => (m, .none)
  | .SubscriptionChannel => (m, .none)
  | .ToggleContextPage context_page =>
    if m.context_page = context_page then
      ({ m with show_context := !m.show_context }, .none)
    else
      ({ m with context_page := context_page, show_context := true }, .none)
  | .UpdateConfig config => ({ m with config := config }, .none)
  | .SelectFile => (m, .performSelectFile)
  | .CheckInstalled package =>
    match package with
    | some package => (m, .appMessage (.UpdatePackage package))
    | none => (m, .none)
  | .UpdatePackage package =>
    ({ m with is_installed := package.is_installed, package := some package },
      .none)
  | .AskPermissions package => (m, .performGrantPermissions package)
  | .PackageInstalled status => ({ m with is_installed := status }, .none)

/-- Outcome of the file-chooser interaction in the `SelectFile` future:
the portal request can fail, the response can fail, or a list of URIs is
returned (each modelled by its path string, what `url.path()` yields). -/
inductive PickResult where
  | requestError
  | responseError
  | picked (uris : List String)
deriving DecidableEq, Repr

/-- The async block of `Message::SelectFile` (`src/app.rs` lines 243–281):
on any failure or an empty URI list it produces `None`; otherwise it takes
the first URI's path and builds a `Package` with the file-name logic inlined
from `Package::new` (`to_str` never fails on UTF-8 strings). -/
def selectFileFuture (pick : PickResult) : Option Package :=
  match pick with
  | .requestError => none
  | .responseError => none
  | .picked uris =>
    match uris.head? with
    | some path =>
      let name :=
        match fileName path with
        | some name => name
        | none => ""
      some { path := path, name := name, is_installed := false }
    | none => none

/-- The runtime-level message produced by a completed command: either an
application message or `cosmic::app::Message::None`. -/
inductive CosmicMessage where
  | App (m : Message)
  | None
deriving DecidableEq, Repr

/-- The completion callback of the `AskPermissions` command (`src/app.rs`
lines 302–308): `Ok(status)` becomes `PackageInstalled(status)`, any `Err`
becomes the runtime's `None` message. -/
def askPermissionsCallback (done : Except String Bool) : CosmicMessage :=
  match done with
  | .ok status => .App (.PackageInstalled status)
  | .error _ => .None

/-- Delivery of a runtime message: an `App` message is fed to `update`, the
`None` message is dropped by the runtime, leaving the model untouched. -/
def deliver (m : AppModel) (cm : CosmicMessage) : AppModel :=
  match cm with
  | .App msg => (update m msg).1
  | .None => m

/-- The model state after the `AskPermissions` command resolves: run
`grant_permissions`, map the result through the completion callback and
deliver the resulting runtime message. -/
def resolveAskPermissions (m : AppModel) (env : Env) (pid : Nat)
    (p : Package) : AppModel :=
  deliver m (askPermissionsCallback (grant_permissions env pid p).1)

/-- The install button of `AppModel::view` (`src/app.rs` lines 136–144): it
exists exactly when a package is selected (outer `Option`), and its
`on_press` handler (inner `Option`) is attached exactly when `is_installed`
is false. -/
def installButton (m : AppModel) : Option (Option Message) :=
  m.package.map (fun package =>
    if !m.is_installed then some (.AskPermissions package) else none)

/-- Whether an `Except` value is an `ok`. -/
def exceptIsOk {ε α : Type} (e : Except ε α) : Bool :=
  match e with
  | .ok _ => true
  | .error _ => false

/-! Concrete fixtures used by witnesses and counterexamples. -/

/-- A concrete chosen package. -/
def pkg0 : Package :=
  { path := "/tmp/a.deb", name := "a.deb", is_installed := false }

/-- Environment in which every remote call succeeds and polkit authorizes. -/
def envAllOk : Env :=
  { connection := .ok ()
    authorityProxyNew := .ok ()
    subjectNewForOwner := .ok ()
    checkAuthorization := .ok { is_authorized := true }
    aptDaemonProxyNew := .ok ()
    installFileRpc := .ok "/org/debian/apt/transaction/1"
    aptTransactionProxyNew := .ok ()
    transactionRun := .ok () }

/-- Environment in which polkit answers `is_authorized = false`. -/
def envDenied : Env :=
  { envAllOk with checkAuthorization := .ok { is_authorized := false } }

/-- Environment in which opening the system bus connection fails. -/
def envConnErr : Env :=
  { envAllOk with connection := .error "connection refused" }

/-- Environment in which creating the apt daemon proxy fails. -/
def envDaemonErr : Env :=
  { envAllOk with aptDaemonProxyNew := .error "no daemon" }

/-- A concrete application model with a selected, not-yet-installed package. -/
def model0 : AppModel :=
  { context_page := .About
    show_context := false
    config := { data := 0 }
    package := some pkg0
    is_installed := false }

/-- `model0` after a successful installation (`is_installed = true`). -/
def modelInstalled : AppModel := { model0 with is_installed := true }

/-- A configuration value different from `model0`'s. -/
def cfg1 : Config := { data := 1 }

/-! Claim theorems. -/

/-- C1, counterexample: when the process id is `0`, `grant_permissions`
reaches the install-file RPC without ever calling polkit's
`check_authorization` — here the environment would even answer
`is_authorized = false` if asked. -/
theorem grant_permissions_pid_zero_skips_authorization :
    Rpc.installFileRpc ∈ (grant_permissions envDenied 0 pkg0).2 ∧
    Rpc.checkAuthorization ∉ (grant_permissions envDenied 0 pkg0).2 ∧
    envDenied.checkAuthorization = .ok { is_authorized := false } := by
  decide

/-- C1 (amended): for every NONZERO process id, the install-file RPC is
reached only when the polkit `check_authorization` call was performed and
returned `is_authorized = true`. -/
theorem grant_permissions_authorization_before_install
    (env : Env) (pid : Nat) (package : Package) (hpid : pid ≠ 0)
    (hmem : Rpc.installFileRpc ∈ (grant_permissions env pid package).2) :
    Rpc.checkAuthorization ∈ (grant_permissions env pid package).2 ∧
    ∃ res, env.checkAuthorization = .ok res ∧ res.is_authorized = true := by
  obtain ⟨c, ap, su, ca, d, i, t, tr⟩ := env
  rcases ca with e | ⟨_ | _⟩ <;> cases c <;> cases ap <;> cases su <;>
    cases d <;> cases i <;> cases t <;> cases tr <;>
    simp_all [grant_permissions, install_file, grantInstallResult]

/-- Witness for C1 (amended) at a concrete authorized environment. -/
theorem grant_permissions_authorization_before_install_witness :
    (1 : Nat) ≠ 0 ∧
    Rpc.installFileRpc ∈ (grant_permissions envAllOk 1 pkg0).2 ∧
    (Rpc.checkAuthorization ∈ (grant_permissions envAllOk 1 pkg0).2 ∧
      ∃ res, envAllOk.checkAuthorization = .ok res ∧
        res.is_authorized = true) :=
  ⟨by decide, by decide,
    grant_permissions_authorization_before_install envAllOk 1 pkg0
      (by decide) (by decide)⟩

/-- C2, counterexample: with a failing bus connection, `grant_permissions`
resolves to an `Err`, yet the `AskPermissions` completion pipeline leaves the
model completely unchanged — no failure is recorded in the state. -/
theorem askPermissions_error_drops_failure :
    (grant_permissions envConnErr 1 pkg0).1 = .error "connection refused" ∧
    resolveAskPermissions model0 envConnErr 1 pkg0 = model0 := by
  decide

/-- C2 (amended): whenever `grant_permissions` resolves to an `Err`, the
`AskPermissions` completion callback maps it to the runtime's no-op message
(`cosmic::app::Message::None`), so the model is left unchanged and the
failure is not recorded in the application state. -/
theorem askPermissions_error_leaves_model_unchanged
    (m : AppModel) (env : Env) (pid : Nat) (p : Package) (e : String)
    (h : (grant_permissions env pid p).1 = .error e) :
    askPermissionsCallback (grant_permissions env pid p).1 = .None ∧
    resolveAskPermissions m env pid p = m := by
  simp [resolveAskPermissions, askPermissionsCallback, deliver, h]

/-- Witness for C2 (amended) at a concrete failing environment. -/
theorem askPermissions_error_leaves_model_unchanged_witness :
    (grant_permissions envConnErr 1 pkg0).1 = .error "connection refused" ∧
    (askPermissionsCallback (grant_permissions envConnErr 1 pkg0).1 = .None ∧
      resolveAskPermissions model0 envConnErr 1 pkg0 = model0) :=
  ⟨by decide,
    askPermissions_error_leaves_model_unchanged model0 envConnErr 1 pkg0
      "connection refused" (by decide)⟩

/-- C3, counterexample: when creating the apt daemon proxy fails,
`install_file` does not return an `Err` — it falls through to `Ok(false)`. -/
theorem install_file_daemon_error_returns_ok_false :
    envDaemonErr.aptDaemonProxyNew = .error "no daemon" ∧
    (install_file envDaemonErr pkg0).1 = .ok false := by
  decide

/-- C3 (amended): `install_file` returns `Ok(true)` exactly when daemon proxy
creation, the install-file RPC, transaction proxy creation and the
transaction run all succeed; it returns an `Err` exactly when the first
three succeed and the transaction run fails; and when daemon proxy creation,
the install-file RPC or transaction proxy creation fails it returns
`Ok(false)`, not an error. -/
theorem install_file_result_characterization (env : Env) (package : Package) :
    ((install_file env package).1 = .ok true ↔
      exceptIsOk env.aptDaemonProxyNew = true ∧
      exceptIsOk env.installFileRpc = true ∧
      exceptIsOk env.aptTransactionProxyNew = true ∧
      exceptIsOk env.transactionRun = true) ∧
    ((∃ e, (install_file env package).1 = .error e) ↔
      exceptIsOk env.aptDaemonProxyNew = true ∧
      exceptIsOk env.installFileRpc = true ∧
      exceptIsOk env.aptTransactionProxyNew = true ∧
      exceptIsOk env.transactionRun = false) ∧
    ((install_file env package).1 = .ok false ↔
      ¬(exceptIsOk env.aptDaemonProxyNew = true ∧
        exceptIsOk env.installFileRpc = true ∧
        exceptIsOk env.aptTransactionProxyNew = true)) := by
  obtain ⟨c, ap, su, ca, d, i, t, tr⟩ := env
  cases d <;> cases i <;> cases t <;> cases tr <;>
    simp_all [install_file, exceptIsOk]

/-- C4: if the polkit check was actually performed and its reply says the
subject is not authorized, `grant_permissions` returns an `Err` and the
install-file RPC is never invoked. -/
theorem grant_permissions_denied_errs_and_skips_install
    (env : Env) (pid : Nat) (package : Package)
    (res : CheckAuthorizationResult)
    (hca : env.checkAuthorization = .ok res) (hden : res.is_authorized = false)
    (hreach : Rpc.checkAuthorization ∈ (grant_permissions env pid package).2) :
    (∃ e, (grant_permissions env pid package).1 = .error e) ∧
    Rpc.installFileRpc ∉ (grant_permissions env pid package).2 := by
  obtain ⟨c, ap, su, ca, d, i, t, tr⟩ := env
  obtain ⟨rb⟩ := res
  cases rb <;> by_cases hp : pid = 0 <;>
    rcases ca with e | ⟨_ | _⟩ <;> cases c <;> cases ap <;> cases su <;>
    cases d <;> cases i <;> cases t <;> cases tr <;>
    simp_all [grant_permissions, install_file, grantInstallResult]

/-- Witness for C4 at a concrete denied environment. -/
theorem grant_permissions_denied_errs_and_skips_install_witness :
    envDenied.checkAuthorization = .ok { is_authorized := false } ∧
    Rpc.checkAuthorization ∈ (grant_permissions envDenied 1 pkg0).2 ∧
    ((∃ e, (grant_permissions envDenied 1 pkg0).1 = .error e) ∧
      Rpc.installFileRpc ∉ (grant_permissions envDenied 1 pkg0).2) :=
  ⟨by decide, by decide,
    grant_permissions_denied_errs_and_skips_install envDenied 1 pkg0
      { is_authorized := false } (by decide) (by decide) (by decide)⟩

/-- C5: a successful pick with at least one URI produces a package whose
`path` is the first URI's path, whose `name` is the final path component
(empty when there is none) and whose `is_installed` is false; the
`SelectFile` update returns the pick command, `CheckInstalled (some p)`
forwards to `UpdatePackage p`, and `UpdatePackage p` stores the package and
sets the model's `is_installed` to false. -/
theorem select_file_pick_updates_package
    (m : AppModel) (path : String) (rest : List String) :
    ∃ p, selectFileFuture (.picked (path :: rest)) = some p ∧
      update m .SelectFile = (m, .performSelectFile) ∧
      update m (.CheckInstalled (some p)) =
        (m, .appMessage (.UpdatePackage p)) ∧
      (update m (.UpdatePackage p)).1.package = some p ∧
      p.path = path ∧
      p.name = (fileName path).getD "" ∧
      (update m (.UpdatePackage p)).1.is_installed = false := by
  refine ⟨_, rfl, rfl, rfl, rfl, rfl, ?_, rfl⟩
  rcases hf : fileName path with _ | n <;> simp [hf]

/-- C6, counterexample: the message enum has nine variants, not six, and
`update` also changes the configuration and the context-drawer visibility
flag, which are outside the three claimed pieces of state. -/
theorem update_has_nine_variants_not_six :
    Fintype.card MessageTag = 9 ∧ (9 : Nat) ≠ 6 ∧
    (update model0 (.UpdateConfig cfg1)).1.config = cfg1 ∧
    model0.config ≠ cfg1 ∧
    (update model0 (.ToggleContextPage .About)).1.show_context ≠
      model0.show_context := by
  refine ⟨by decide, by decide, by decide, by decide, by decide⟩

/-- C6 (amended): `update` responds to exactly nine message variants (each
variant tag is realised by a message), and besides the package record and
the `is_installed` flag it also updates the persisted configuration and the
context-drawer visibility flag. -/
theorem update_variant_and_state_summary :
    Fintype.card MessageTag = 9 ∧
    Function.Surjective Message.tag ∧
    (∀ m p, (update m (.UpdatePackage p)).1.package = some p ∧
      (update m (.UpdatePackage p)).1.is_installed = p.is_installed) ∧
    (∀ m c, (update m (.UpdateConfig c)).1 = { m with config := c }) ∧
    (∀ m, (update m (.ToggleContextPage m.context_page)).1.show_context =
      !m.show_context) := by
  refine ⟨by decide, ?_, ?_, ?_, ?_⟩
  · intro t
    cases t with
    | OpenRepositoryUrl => exact ⟨.OpenRepositoryUrl, rfl⟩
    | SubscriptionChannel => exact ⟨.SubscriptionChannel, rfl⟩
    | ToggleContextPage => exact ⟨.ToggleContextPage .About, rfl⟩
    | UpdateConfig => exact ⟨.UpdateConfig cfg1, rfl⟩
    | SelectFile => exact ⟨.SelectFile, rfl⟩
    | UpdatePackage => exact ⟨.UpdatePackage pkg0, rfl⟩
    | AskPermissions => exact ⟨.AskPermissions pkg0, rfl⟩
    | CheckInstalled => exact ⟨.CheckInstalled none, rfl⟩
    | PackageInstalled => exact ⟨.PackageInstalled true, rfl⟩
  · intro m p
    exact ⟨rfl, rfl⟩
  · intro m c
    rfl
  · intro m
    simp [update]

/-- C7: when a package is selected and `is_installed` is true, the view shows
the install button without a press handler, so no `AskPermissions` message
can originate from that state. -/
theorem installed_package_button_has_no_handler
    (m : AppModel) (p : Package) (hp : m.package = some p)
    (hi : m.is_installed = true) :
    installButton m = some none := by
  simp [installButton, hp, hi]

/-- Witness for C7 at a concrete installed model. -/
theorem installed_package_button_has_no_handler_witness :
    modelInstalled.package = some pkg0 ∧ modelInstalled.is_installed = true ∧
    installButton modelInstalled = some none :=
  ⟨by decide, by decide,
    installed_package_button_has_no_handler modelInstalled pkg0 (by decide)
      (by decide)⟩

/-- C8: every failed or empty file pick yields `None`, and
`CheckInstalled none` leaves the whole model unchanged and returns no
command. -/
theorem check_installed_none_is_noop (m : AppModel) :
    update m (.CheckInstalled none) = (m, .none) ∧
    selectFileFuture .requestError = none ∧
    selectFileFuture .responseError = none ∧
    selectFileFuture (.picked []) = none :=
  ⟨rfl, rfl, rfl, rfl⟩

/-- C9: `Package::new` always returns `Ok`, with `path` the input,
`is_installed` false and `name` the final path component of the input (the
empty string when there is none). -/
theorem package_new_always_ok (path : String) :
    ∃ p, Package.new path = .ok p ∧ p.path = path ∧
      p.is_installed = false ∧ p.name = (fileName path).getD "" := by
  refine ⟨_, rfl, rfl, rfl, ?_⟩
  rcases hf : fileName path with _ | n <;> simp [hf]

/-- C10: toggling with the current context page flips the drawer visibility
and keeps the page; toggling with a different page sets that page and shows
the drawer; in both cases the package and `is_installed` are unchanged. -/
theorem toggle_context_page_update (m : AppModel) (p : ContextPage) :
    (if m.context_page = p then
      (update m (.ToggleContextPage p)).1.show_context = !m.show_context ∧
      (update m (.ToggleContextPage p)).1.context_page = m.context_page
    else
      (update m (.ToggleContextPage p)).1.context_page = p ∧
      (update m (.ToggleContextPage p)).1.show_context = true) ∧
    (update m (.ToggleContextPage p)).1.package = m.package ∧
    (update m (.ToggleContextPage p)).1.is_installed = m.is_installed := by
  by_cases h : m.context_page = p <;> simp [update, h]

end Wizard
